import Mathlib

/-!
Verification of the vault67 analysis-and-aggregation pipeline.

This file shallowly embeds the core of the repository: the shared finding
schema (`models/schemas.py`), the structural complexity analyzer
(`analyzer/ast_analyzer.py`), the two external-tool output normalizers
(`analyzer/mypy_analyzer.py`, `analyzer/ruff_analyzer.py`) and the summary
and recommendation builders (`cli.py`).  Pure functions become Lean
functions; the boundary with the file system, the `ast.parse` call and the
`json.loads` call are modelled as explicit outcome values, since the code
only branches on their success or failure.  Theorems at the end of the file
settle the specification claims against these definitions.
-/

/-- Severity levels for findings (schemas.py `Severity`). -/
inductive Severity : Type where
  | critical
  | high
  | medium
  | low
  | info
deriving DecidableEq, Repr

/-- Types of code issues that can be found (schemas.py `FindingType`). -/
inductive FindingType : Type where
  | style
  | type_error
  | complexity
  | security
  | performance
  | maintainability
  | bug
  | code_smell
deriving DecidableEq, Repr

/-- Priority levels for recommendations (schemas.py `Priority`). -/
inductive Priority : Type where
  | urgent
  | high
  | medium
  | low
deriving DecidableEq, Repr

/-- Location of a finding in the codebase (schemas.py `Location`). -/
structure Location : Type where
  file : String
  line : Option Nat := none
  column : Option Nat := none
  end_line : Option Nat := none
  function : Option String := none
deriving DecidableEq, Repr

/-- A code issue found during analysis (schemas.py `Finding`). -/
structure Finding : Type where
  type : FindingType
  severity : Severity
  location : Location
  message : String
  rule_id : Option String := none
  fix_available : Bool := false
deriving DecidableEq, Repr

/-- A recommended action to improve the codebase (schemas.py `Recommendation`). -/
structure Recommendation : Type where
  priority : Priority
  category : String
  action : String
  rationale : String
  impact : String
  effort : Option String := none
  related_findings : List String := []
deriving DecidableEq, Repr

/-- Git repository metrics (schemas.py `GitMetrics`). -/
structure GitMetrics : Type where
  total_commits : Nat
  total_contributors : Nat
  hot_spots : List String := []
  large_files : List String := []
  last_commit_date : Option String := none
deriving DecidableEq, Repr

/-- Summary statistics for the analysis (schemas.py `AnalysisSummary`).  The
two Python `dict[...] -> int` count mappings are embedded as association
lists in insertion order, which is how `dict(Counter(...))` presents them. -/
structure AnalysisSummary : Type where
  total_files : Nat
  python_files : Nat
  total_findings : Nat
  findings_by_severity : List (Severity × Nat)
  findings_by_type : List (FindingType × Nat)
  total_recommendations : Nat
deriving DecidableEq, Repr

/-- The subset of the Python abstract syntax tree that the structural
analyzer inspects (`ast_analyzer.py`).  The node kinds with dedicated
visitor methods (`If`, `For`, `While`, `ExceptHandler`, `With`, `BoolOp`)
and the node kinds the tree walk dispatches on (`FunctionDef`,
`AsyncFunctionDef`, `ClassDef`) are explicit constructors; every other node
kind is `other`, carrying only its child nodes, which is all the generic
visitor looks at. -/
inductive PyNode : Type where
  | ifStmt (test : PyNode) (body orelse : List PyNode)
  | forStmt (target iter : PyNode) (body orelse : List PyNode)
  | whileStmt (test : PyNode) (body orelse : List PyNode)
  | withStmt (items : List PyNode) (body : List PyNode)
  | tryStmt (body : List PyNode) (handlers : List PyNode) (orelse finalbody : List PyNode)
  | exceptHandler (body : List PyNode)
  | boolOp (values : List PyNode)
  | functionDef (name : String) (lineno colOffset : Nat) (endLineno : Option Nat)
      (argCount : Nat) (body : List PyNode)
  | asyncFunctionDef (name : String) (lineno colOffset : Nat) (endLineno : Option Nat)
      (argCount : Nat) (body : List PyNode)
  | classDef (name : String) (lineno colOffset : Nat) (body : List PyNode)
  | other (children : List PyNode)

mutual

/-- Generic accumulating traversal of a node's whole subtree: the value of
`f` at the node plus, recursively, at every descendant.  This is the shape
of an `ast.NodeVisitor` whose every method calls `generic_visit`. -/
def nodeSumI (f : PyNode → Int) : PyNode → Int
  | .ifStmt t b e => f (.ifStmt t b e) + nodeSumI f t + listSumI f b + listSumI f e
  | .forStmt t i b e =>
      f (.forStmt t i b e) + nodeSumI f t + nodeSumI f i + listSumI f b + listSumI f e
  | .whileStmt t b e => f (.whileStmt t b e) + nodeSumI f t + listSumI f b + listSumI f e
  | .withStmt its b => f (.withStmt its b) + listSumI f its + listSumI f b
  | .tryStmt b h e fb =>
      f (.tryStmt b h e fb) + listSumI f b + listSumI f h + listSumI f e + listSumI f fb
  | .exceptHandler b => f (.exceptHandler b) + listSumI f b
  | .boolOp vs => f (.boolOp vs) + listSumI f vs
  | .functionDef n l c el a b => f (.functionDef n l c el a b) + listSumI f b
  | .asyncFunctionDef n l c el a b => f (.asyncFunctionDef n l c el a b) + listSumI f b
  | .classDef n l c b => f (.classDef n l c b) + listSumI f b
  | .other cs => f (.other cs) + listSumI f cs

/-- `nodeSumI` over every node of a list, in order. -/
def listSumI (f : PyNode → Int) : List PyNode → Int
  | [] => 0
  | n :: ns => nodeSumI f n + listSumI f ns

end

/-- Per-node increment of `ComplexityVisitor` (ast_analyzer.py lines 15-43):
`visit_If`, `visit_For`, `visit_While`, `visit_ExceptHandler` and
`visit_With` each add 1; `visit_BoolOp` adds `len(node.values) - 1`; every
other node kind falls through to `generic_visit` and adds nothing. -/
def visitAdd : PyNode → Int
  | .ifStmt .. => 1
  | .forStmt .. => 1
  | .whileStmt .. => 1
  | .exceptHandler _ => 1
  | .withStmt .. => 1
  | .boolOp vs => (vs.length : Int) - 1
  | _ => 0

/-- Total amount added to `self.complexity` by `visitor.visit(node)`:
the visitor methods fire at the node and, through `generic_visit`, at every
descendant. -/
def addedComplexity (t : PyNode) : Int := nodeSumI visitAdd t

/-- Result of running `ComplexityVisitor` on a node: `self.complexity`
starts at 1 and `visit` accumulates `addedComplexity`. -/
def complexityOf (t : PyNode) : Int := 1 + addedComplexity t

/-- Does the node match `isinstance(n, ast.FunctionDef)`?  In Python,
`ast.AsyncFunctionDef` is not a subclass of `ast.FunctionDef`, so async
definitions do not match. -/
def isFunctionDefNode : PyNode → Bool
  | .functionDef .. => true
  | _ => false

/-- The `ComplexityVisitor` run plus the three threshold checks of
`ASTAnalyzer._analyze_function` (ast_analyzer.py lines 117-185), taking the
fields of the `ast.FunctionDef` node.  `argCount` is `len(node.args.args)`;
`endLineno` is `node.end_lineno` (`none` when unavailable, and a value of
`0` is falsy in the source's truthiness test). -/
def analyze_function (complexity_threshold : Nat) (file_path : String) (name : String)
    (lineno colOffset : Nat) (endLineno : Option Nat) (argCount : Nat)
    (body : List PyNode) : List Finding :=
  let complexity := complexityOf (.functionDef name lineno colOffset endLineno argCount body)
  (if (complexity_threshold : Int) < complexity then
    [{ type := FindingType.complexity,
       severity := if (complexity_threshold : Int) * 2 < complexity then Severity.high
                   else Severity.medium,
       location := { file := file_path, line := some lineno, column := some colOffset,
                     end_line := none, function := some name },
       message := "Function '" ++ name ++ "' has high cyclomatic complexity ("
         ++ toString complexity ++ ")",
       rule_id := some "AST100", fix_available := false }]
   else [])
  ++ (if 7 < argCount then
    [{ type := FindingType.code_smell, severity := Severity.medium,
       location := { file := file_path, line := some lineno, column := some colOffset,
                     end_line := none, function := some name },
       message := "Function '" ++ name ++ "' has too many arguments ("
         ++ toString argCount ++ ")",
       rule_id := some "AST101", fix_available := false }]
   else [])
  ++ (match endLineno with
      | some e =>
        if e = 0 then []
        else if 50 < e - lineno then
          [{ type := FindingType.maintainability, severity := Severity.low,
             location := { file := file_path, line := some lineno, column := some colOffset,
                           end_line := some e, function := some name },
             message := "Function '" ++ name ++ "' is very long ("
               ++ toString (e - lineno) ++ " lines)",
             rule_id := some "AST102", fix_available := false }]
        else []
      | none => [])

/-- `ASTAnalyzer._analyze_class` (ast_analyzer.py lines 187-209): count the
directly declared synchronous methods and flag classes with more than 20. -/
def analyze_class (file_path : String) (name : String) (lineno colOffset : Nat)
    (body : List PyNode) : List Finding :=
  let methods := body.filter isFunctionDefNode
  if 20 < methods.length then
    [{ type := FindingType.code_smell, severity := Severity.medium,
       location := { file := file_path, line := some lineno, column := some colOffset,
                     end_line := none, function := none },
       message := "Class '" ++ name ++ "' has too many methods ("
         ++ toString methods.length ++ "). Consider splitting it.",
       rule_id := some "AST200", fix_available := false }]
  else []

/-- Child nodes of a node, in field order (`ast.iter_child_nodes`). -/
def childrenOf : PyNode → List PyNode
  | .ifStmt t b e => t :: b ++ e
  | .forStmt t i b e => t :: i :: b ++ e
  | .whileStmt t b e => t :: b ++ e
  | .withStmt its b => its ++ b
  | .tryStmt b h e fb => b ++ h ++ e ++ fb
  | .exceptHandler b => b
  | .boolOp vs => vs
  | .functionDef _ _ _ _ _ b => b
  | .asyncFunctionDef _ _ _ _ _ b => b
  | .classDef _ _ _ b => b
  | .other cs => cs

mutual

/-- Number of nodes in a subtree, used as walk fuel. -/
def totalNodes : PyNode → Nat
  | .ifStmt t b e => 1 + totalNodes t + totalNodesL b + totalNodesL e
  | .forStmt t i b e => 1 + totalNodes t + totalNodes i + totalNodesL b + totalNodesL e
  | .whileStmt t b e => 1 + totalNodes t + totalNodesL b + totalNodesL e
  | .withStmt its b => 1 + totalNodesL its + totalNodesL b
  | .tryStmt b h e fb => 1 + totalNodesL b + totalNodesL h + totalNodesL e + totalNodesL fb
  | .exceptHandler b => 1 + totalNodesL b
  | .boolOp vs => 1 + totalNodesL vs
  | .functionDef _ _ _ _ _ b => 1 + totalNodesL b
  | .asyncFunctionDef _ _ _ _ _ b => 1 + totalNodesL b
  | .classDef _ _ _ b => 1 + totalNodesL b
  | .other cs => 1 + totalNodesL cs

/-- Number of nodes across a list of subtrees. -/
def totalNodesL : List PyNode → Nat
  | [] => 0
  | n :: ns => totalNodes n + totalNodesL ns

end

/-- Breadth-first enumeration of all nodes reachable from the queue, the
order produced by `ast.walk`.  The fuel argument only serves termination;
the node count of the tree bounds the number of steps, so the caller's fuel
never runs out. -/
def walkBFS : Nat → List PyNode → List PyNode
  | 0, _ => []
  | _ + 1, [] => []
  | fuel + 1, n :: rest => n :: walkBFS fuel (rest ++ childrenOf n)

/-- Dispatch of `ASTAnalyzer._analyze_tree`'s loop body on one walked node
(ast_analyzer.py lines 109-113): `FunctionDef` nodes go to
`_analyze_function`, `ClassDef` nodes to `_analyze_class`, everything else
(including `AsyncFunctionDef`) is skipped. -/
def nodeFindings (complexity_threshold : Nat) (file_path : String) : PyNode → List Finding
  | .functionDef name lineno colOffset endLineno argCount body =>
      analyze_function complexity_threshold file_path name lineno colOffset endLineno
        argCount body
  | .classDef name lineno colOffset body => analyze_class file_path name lineno colOffset body
  | _ => []

/-- `ASTAnalyzer._analyze_tree` (ast_analyzer.py lines 105-115). -/
def analyze_tree (complexity_threshold : Nat) (file_path : String) (tree : PyNode) :
    List Finding :=
  (walkBFS (totalNodes tree) [tree]).flatMap (nodeFindings complexity_threshold file_path)

/-- Outcome of the `open`/`read`/`ast.parse` sequence at the head of
`ASTAnalyzer.analyze_file`.  The source only branches on which exception
(if any) escaped that sequence, so the boundary is modelled as a value:
a parsed tree, a `SyntaxError` carrying its optional `lineno`/`offset` and
its message, or any other exception carrying its rendered message. -/
inductive ParseOutcome : Type where
  | ok (tree : PyNode)
  | syntaxError (lineno : Option Nat) (offset : Option Nat) (msg : String)
  | otherError (msg : String)

/-- `ASTAnalyzer.analyze_file` (ast_analyzer.py lines 58-103).  The Python
`e.lineno or 0` and `e.offset or 0` default missing positions to 0 (and map
an explicit 0 to 0), which `Option.getD 0` reproduces. -/
def analyze_file (complexity_threshold : Nat) (file_path : String)
    (outcome : ParseOutcome) : List Finding :=
  match outcome with
  | .ok tree => analyze_tree complexity_threshold file_path tree
  | .syntaxError lineno offset msg =>
      [{ type := FindingType.bug, severity := Severity.critical,
         location := { file := file_path, line := some (lineno.getD 0),
                       column := some (offset.getD 0), end_line := none, function := none },
         message := "Syntax error: " ++ msg,
         rule_id := some "AST001", fix_available := false }]
  | .otherError msg =>
      [{ type := FindingType.bug, severity := Severity.high,
         location := { file := file_path, line := none, column := none, end_line := none,
                       function := none },
         message := "Failed to analyze file: " ++ msg,
         rule_id := some "AST000", fix_available := false }]

/-- One `Counter` increment: add one to the entry of `k`, appending a new
entry at the end on first occurrence, exactly the insertion-order behavior
of a Python `Counter`/`dict`. -/
def bumpCount {α : Type} [DecidableEq α] (k : α) : List (α × Nat) → List (α × Nat)
  | [] => [(k, 1)]
  | (k', n) :: rest => if k = k' then (k', n + 1) :: rest else (k', n) :: bumpCount k rest

/-- Counting a list of items by a key, as `Counter(key(x) for x in l)`. -/
def countsBy {α β : Type} [DecidableEq α] (key : β → α) (l : List β) : List (α × Nat) :=
  l.foldl (fun acc b => bumpCount (key b) acc) []

/-- Sum of the multiplicities of a count mapping. -/
def sumCounts {α : Type} (m : List (α × Nat)) : Nat := (m.map (fun p => p.2)).sum

/-- The keys present in a count mapping. -/
def countKeys {α : Type} (m : List (α × Nat)) : List α := m.map (fun p => p.1)

/-- `_generate_summary` (cli.py lines 173-195): severity and type counters
over the findings, and `total_files` as the number of distinct files among
the findings' locations, falling back to the supplied Python-file count
when that set is empty. -/
def _generate_summary (findings : List Finding) (python_files_count : Nat) :
    AnalysisSummary :=
  let severity_counts := countsBy (fun f => f.severity) findings
  let type_counts := countsBy (fun f => f.type) findings
  let files_with_findings := (findings.map (fun f => f.location.file)).dedup
  { total_files := if files_with_findings.isEmpty then python_files_count
                   else files_with_findings.length,
    python_files := python_files_count,
    total_findings := findings.length,
    findings_by_severity := severity_counts,
    findings_by_type := type_counts,
    total_recommendations := 0 }

/-- `sum(1 for f in findings if f.severity == Severity.CRITICAL)` in
`_generate_recommendations`. -/
def critical_count (findings : List Finding) : Nat :=
  findings.countP (fun f => decide (f.severity = Severity.critical))

/-- `sum(1 for f in findings if f.severity == Severity.HIGH)`. -/
def high_count (findings : List Finding) : Nat :=
  findings.countP (fun f => decide (f.severity = Severity.high))

/-- `[f for f in findings if f.type == FindingType.COMPLEXITY]`. -/
def complexity_issues (findings : List Finding) : List Finding :=
  findings.filter (fun f => decide (f.type = FindingType.complexity))

/-- `[f for f in findings if f.type == FindingType.TYPE_ERROR]`. -/
def type_errors (findings : List Finding) : List Finding :=
  findings.filter (fun f => decide (f.type = FindingType.type_error))

/-- `sum(1 for f in findings if f.fix_available)`. -/
def fixable_count (findings : List Finding) : Nat :=
  findings.countP (fun f => f.fix_available)

/-- `_generate_recommendations` (cli.py lines 198-299): seven independent
threshold rules appended in source order.  The Python truthiness tests
`if git_metrics and git_metrics.hot_spots:` and `... .large_files:` become
an option match plus an emptiness test. -/
def _generate_recommendations (findings : List Finding) (git_metrics : Option GitMetrics) :
    List Recommendation :=
  (if 0 < critical_count findings then
    [{ priority := Priority.urgent, category := "Critical Issues",
       action := "Fix " ++ toString (critical_count findings)
         ++ " critical issue(s) immediately",
       rationale := "Critical issues can cause runtime failures or security vulnerabilities",
       impact := "Prevents potential system failures and security breaches",
       effort := some (if 10 < critical_count findings then "high" else "medium"),
       related_findings := [] }]
   else [])
  ++ (if 5 < high_count findings then
    [{ priority := Priority.high, category := "High Severity Issues",
       action := "Address " ++ toString (high_count findings) ++ " high-severity issues",
       rationale := "High-severity issues indicate bugs or type errors that should be fixed",
       impact := "Improves code reliability and reduces bug risk",
       effort := some (if 20 < high_count findings then "high" else "medium"),
       related_findings := [] }]
   else [])
  ++ (if 5 < (complexity_issues findings).length then
    [{ priority := Priority.medium, category := "Code Complexity",
       action := "Refactor " ++ toString (complexity_issues findings).length
         ++ " complex functions",
       rationale := "High complexity makes code harder to understand, test, and maintain",
       impact := "Improves code maintainability and reduces bug introduction risk",
       effort := some "high", related_findings := [] }]
   else [])
  ++ (if 10 < (type_errors findings).length then
    [{ priority := Priority.high, category := "Type Safety",
       action := "Improve type annotations and fix type errors",
       rationale := "Type safety helps catch bugs early and improves code documentation",
       impact := "Reduces runtime errors and improves IDE support",
       effort := some "medium", related_findings := [] }]
   else [])
  ++ (match git_metrics with
      | some g =>
        if g.hot_spots.isEmpty then []
        else
          [{ priority := Priority.medium, category := "Code Hot Spots",
             action := "Review and potentially refactor " ++ toString g.hot_spots.length
               ++ " frequently-changed files",
             rationale := "Files that change frequently may indicate design issues or "
               ++ "insufficient abstraction",
             impact := "Reduces future change frequency and improves design",
             effort := some "high", related_findings := [] }]
      | none => [])
  ++ (match git_metrics with
      | some g =>
        if g.large_files.isEmpty then []
        else
          [{ priority := Priority.low, category := "Large Files",
             action := "Consider splitting " ++ toString g.large_files.length
               ++ " large files",
             rationale := "Large files are harder to navigate and may indicate low cohesion",
             impact := "Improves code organization and maintainability",
             effort := some "medium", related_findings := [] }]
      | none => [])
  ++ (if 0 < fixable_count findings then
    [{ priority := Priority.low, category := "Quick Wins",
       action := "Run auto-fix for " ++ toString (fixable_count findings)
         ++ " fixable issues",
       rationale := "Many linting issues can be automatically fixed",
       impact := "Quick improvement in code quality with minimal effort",
       effort := some "low", related_findings := [] }]
   else [])

/-- Python regex `\w` restricted to its ASCII part, which covers every
level and error-code mypy emits. -/
def isWordChar (c : Char) : Bool := c.isAlphanum || c = '_'

/-- Python regex `[\w-]`, the character class of mypy error codes. -/
def isCodeChar (c : Char) : Bool := isWordChar c || c = '-'

/-- Python regex `\s` without the newline; inside one line of input, the
newline cannot occur, and the newline steps between lines are handled
structurally by `wsJump`. -/
def isLineSpace (c : Char) : Bool :=
  c = ' ' || c = '\t' || c = '\r' || c = '\x0b' || c = '\x0c'

/-- Split a character stream at newlines.  The segment starts are exactly
the positions where `re.MULTILINE`'s `^` matches and the segment ends are
exactly where its `$` matches. -/
def splitNL : List Char → List (List Char)
  | [] => [[]]
  | c :: rest =>
    if c = '\n' then [] :: splitNL rest
    else
      match splitNL rest with
      | l :: ls => (c :: l) :: ls
      | [] => [[c]]

/-- Join line segments back with newlines (used for a regex `[^:]+` match
that spans several lines). -/
def joinNL : List (List Char) → List Char
  | [] => []
  | [l] => l
  | l :: ls => l ++ '\n' :: joinNL ls

/-- Greedy `\s+` starting inside the current line and continuing across
following lines (a newline is whitespace for the regex).  Returns whether
at least one character was consumed, the rest of the line the run stopped
in, and the lines after that line. -/
def wsJump : List Char → List (List Char) → Bool × List Char × List (List Char)
  | cur, ls =>
    let rest := cur.dropWhile isLineSpace
    match rest, ls with
    | [], l :: ls' =>
      let r := wsJump l ls'
      (true, r.2.1, r.2.2)
    | _, _ => (decide (rest.length < cur.length), rest, ls)

/-- Attempt of the greedy optional group `(?:\s+\[(?P<code>[\w-]+)\])?`
followed by `$`: a nonempty whitespace run (possibly crossing newlines),
a bracketed nonempty code, and then the end of a line.  Returns the code
and the lines after the line the match ends in. -/
def tryCode (cur : List Char) (ls : List (List Char)) :
    Option (String × List (List Char)) :=
  let r := wsJump cur ls
  if r.1 then
    match r.2.1 with
    | a :: c2 =>
      if a = '[' then
        let code := c2.takeWhile isCodeChar
        if code.isEmpty then none
        else
          match c2.dropWhile isCodeChar with
          | b :: c3 => if b = ']' ∧ c3.isEmpty then some (String.mk code, r.2.2) else none
          | [] => none
      else none
    | [] => none
  else none

/-- One step of the lazy message scan, split out so that each branch is an
unconditional equation: if the greedy optional code group matches right
after the current message prefix, stop with that code; otherwise, at the
end of the line accept the whole prefix as the message with no code, and in
the middle of the line continue with the given continuation. -/
def msgScanStep (acc : List Char) (c : Char) (rs : List Char) (ls : List (List Char))
    (tc : Option (String × List (List Char)))
    (k : Option (List Char × Option String × List (List Char))) :
    Option (List Char × Option String × List (List Char)) :=
  match tc with
  | some (code, ls') => some (acc ++ [c], some code, ls')
  | none =>
    match rs with
    | [] => some (acc ++ [c], none, ls)
    | _ :: _ => k

/-- Lazy `(?P<message>.+?)` followed by the greedy optional code group and
`$`: take the shortest nonempty message prefix of the rest of the line such
that the remainder matches the code group (tried first, as the group is
greedy) or, failing that at the end of the line, the whole rest of the line
as the message with no code. -/
def msgScan : List Char → List Char → List (List Char) →
    Option (List Char × Option String × List (List Char))
  | _, [], _ => none
  | acc, c :: rs, ls =>
    msgScanStep acc c rs ls (tryCode rs ls) (msgScan (acc ++ [c]) rs ls)

/-- Split off the maximal run of lines containing no colon; `[^:]+` cannot
cross a colon, so a match attempt reaches the first line that has one. -/
def splitColonFree : List (List Char) →
    Option (List (List Char) × List Char × List (List Char))
  | [] => none
  | l :: ls =>
    if l.contains ':' then some ([], l, ls)
    else
      match splitColonFree ls with
      | some (pre, m, rest) => some (l :: pre, m, rest)
      | none => none

/-- Greedy `\d+`: the maximal nonempty digit run and the rest. -/
def digits1 (cs : List Char) : Option (List Char × List Char) :=
  let ds := cs.takeWhile Char.isDigit
  if ds.isEmpty then none else some (ds, cs.dropWhile Char.isDigit)

/-- Value of a digit run, as Python `int(...)` of the captured group. -/
def digitsToNat (ds : List Char) : Nat :=
  ds.foldl (fun n c => n * 10 + (c.toNat - ('0').toNat)) 0

/-- Expect one literal character. -/
def expectChar (c : Char) : List Char → Option (List Char)
  | x :: rest => if x = c then some rest else none
  | [] => none

/-- The capture groups of one match of the mypy diagnostic pattern. -/
structure MypyMatch : Type where
  file : String
  line : Nat
  col : Nat
  level : String
  message : String
  code : Option String
deriving DecidableEq, Repr

/-- One anchored attempt of the mypy pattern
`^(?P<file>[^:]+):(?P<line>\d+):(?P<col>\d+): (?P<level>\w+): `
`(?P<message>.+?)(?:\s+\[(?P<code>[\w-]+)\])?$`
starting at the first given line.  The `[^:]+` file group may absorb any
leading colon-free lines (a newline is not a colon), the numbered groups
are confined to the first colon-carrying line, and the optional code group
may continue into later lines through its leading `\s+`.  Returns the
capture groups and the lines after the line the match ends in; the pattern
is deterministic here because every quantifier stops at a character its
continuation cannot consume. -/
def matchFrom (ls : List (List Char)) : Option (MypyMatch × List (List Char)) :=
  match splitColonFree ls with
  | none => none
  | some (pre, colonLine, rest) =>
    let filePart := colonLine.takeWhile (· != ':')
    let fileChars := joinNL (pre ++ [filePart])
    if fileChars.isEmpty then none
    else
      match expectChar ':' (colonLine.dropWhile (· != ':')) with
      | none => none
      | some r1 =>
        match digits1 r1 with
        | none => none
        | some (lineDs, r2) =>
          match expectChar ':' r2 with
          | none => none
          | some r3 =>
            match digits1 r3 with
            | none => none
            | some (colDs, r4) =>
              match expectChar ':' r4 with
              | none => none
              | some r5 =>
                match expectChar ' ' r5 with
                | none => none
                | some r6 =>
                  let lvl := r6.takeWhile isWordChar
                  if lvl.isEmpty then none
                  else
                    match expectChar ':' (r6.dropWhile isWordChar) with
                    | none => none
                    | some r7 =>
                      match expectChar ' ' r7 with
                      | none => none
                      | some r8 =>
                        match msgScan [] r8 rest with
                        | none => none
                        | some (msg, code, remaining) =>
                          some ({ file := String.mk fileChars,
                                  line := digitsToNat lineDs,
                                  col := digitsToNat colDs,
                                  level := String.mk lvl,
                                  message := String.mk msg,
                                  code := code }, remaining)

/-- `re.finditer` scan: try a match at each `^` position from the top; on a
match, resume after it (a match always ends at a line end), otherwise move
to the next line.  The fuel, one unit per line, suffices because a match
always consumes at least the line it starts in. -/
def findMatchesFuel : Nat → List (List Char) → List MypyMatch
  | 0, _ => []
  | _ + 1, [] => []
  | fuel + 1, l :: ls =>
    match matchFrom (l :: ls) with
    | some (m, remaining) => m :: findMatchesFuel fuel remaining
    | none => findMatchesFuel fuel ls

/-- All matches of the mypy pattern over the segmented input. -/
def findAllMatches (ls : List (List Char)) : List MypyMatch :=
  findMatchesFuel ls.length ls

/-- `MypyAnalyzer.SEVERITY_MAP` (mypy_analyzer.py lines 21-33). -/
def MYPY_SEVERITY_MAP : List (String × Severity) :=
  [("syntax", Severity.critical),
   ("attr-defined", Severity.high),
   ("name-defined", Severity.high),
   ("call-arg", Severity.high),
   ("arg-type", Severity.medium),
   ("return-value", Severity.medium),
   ("assignment", Severity.medium),
   ("type-arg", Severity.medium),
   ("no-untyped-def", Severity.low),
   ("no-any-return", Severity.low),
   ("unused-ignore", Severity.info)]

/-- `MypyAnalyzer._get_severity_for_code`: `SEVERITY_MAP.get(code, MEDIUM)`.
The argument is the `code` capture group, which `groupdict()` reports as
`None` when the optional group did not participate; `None` is not a map
key, so it takes the default. -/
def get_severity_for_code (code : Option String) : Severity :=
  match code with
  | some c => (MYPY_SEVERITY_MAP.lookup c).getD Severity.medium
  | none => Severity.medium

/-- `MypyAnalyzer._convert_mypy_match` (mypy_analyzer.py lines 118-150).
The `rule_id` expression `f"mypy:{code}" if code else "mypy"` tests Python
truthiness, so both a missing and an empty code give the bare tool name. -/
def convert_mypy_match (m : MypyMatch) : Finding :=
  let severity :=
    if m.level = "error" then get_severity_for_code m.code
    else if m.level = "warning" then Severity.low
    else if m.level = "note" then Severity.info
    else Severity.medium
  { type := FindingType.type_error,
    severity := severity,
    location := { file := m.file, line := some m.line, column := some m.col,
                  end_line := none, function := none },
    message := m.message,
    rule_id := some (match m.code with
      | some c => if c = "" then "mypy" else "mypy:" ++ c
      | none => "mypy"),
    fix_available := false }

/-- `MypyAnalyzer._parse_mypy_output` (mypy_analyzer.py lines 101-116):
one Finding per match of the multiline pattern over the raw output. -/
def _parse_mypy_output (output : String) : List Finding :=
  (findAllMatches (splitNL output.data)).map convert_mypy_match

/-- Nested `location`/`end_location` object of a ruff JSON issue. -/
structure RuffLoc : Type where
  row : Option Nat := none
  column : Option Nat := none
deriving DecidableEq, Repr

/-- One element of ruff's JSON issue array, with exactly the keys
`_convert_ruff_issue` reads; an absent key is `none`, and `hasFix` is the
Python test `issue.get("fix") is not None`. -/
structure RuffIssue : Type where
  filename : Option String := none
  location : Option RuffLoc := none
  end_location : Option RuffLoc := none
  code : Option String := none
  message : Option String := none
  hasFix : Bool := false
deriving DecidableEq, Repr

/-- `RuffAnalyzer.SEVERITY_MAP` (ruff_analyzer.py lines 20-32). -/
def RUFF_SEVERITY_MAP : List (String × Severity) :=
  [("E", Severity.medium),
   ("F", Severity.high),
   ("W", Severity.low),
   ("I", Severity.low),
   ("N", Severity.low),
   ("UP", Severity.medium),
   ("S", Severity.high),
   ("B", Severity.medium),
   ("A", Severity.medium),
   ("C4", Severity.low),
   ("T20", Severity.low)]

/-- The character loop of `RuffAnalyzer._get_severity_for_rule`: collect
leading characters while they are alphabetic and stop at the first one
that is not. -/
def leadingAlphaOf (rule_code : String) : String :=
  String.mk (rule_code.data.takeWhile Char.isAlpha)

/-- `RuffAnalyzer._get_severity_for_rule` (ruff_analyzer.py lines 148-158):
look the leading alphabetic run up in the severity table, with `medium` as
the fallback. -/
def get_severity_for_rule (rule_code : String) : Severity :=
  (RUFF_SEVERITY_MAP.lookup (leadingAlphaOf rule_code)).getD Severity.medium

/-- `RuffAnalyzer._get_finding_type` (ruff_analyzer.py lines 160-179). -/
def get_finding_type (rule_code : String) : FindingType :=
  if rule_code.startsWith "S" then FindingType.security
  else if rule_code.startsWith "F" || rule_code.startsWith "E9" then FindingType.bug
  else if rule_code.startsWith "E" || rule_code.startsWith "W"
      || rule_code.startsWith "I" || rule_code.startsWith "N" then FindingType.style
  else if rule_code.startsWith "PERF" then FindingType.performance
  else FindingType.code_smell

/-- `RuffAnalyzer._convert_ruff_issue` (ruff_analyzer.py lines 116-146). -/
def convert_ruff_issue (issue : RuffIssue) : Finding :=
  let location_data := issue.location.getD {}
  let end_location := issue.end_location.getD {}
  let rule_code := issue.code.getD ""
  { type := get_finding_type rule_code,
    severity := get_severity_for_rule rule_code,
    location := { file := issue.filename.getD "unknown",
                  line := location_data.row, column := location_data.column,
                  end_line := end_location.row, function := none },
    message := issue.message.getD "No message provided",
    rule_id := some rule_code,
    fix_available := issue.hasFix }

/-- `RuffAnalyzer._parse_ruff_output` (ruff_analyzer.py lines 92-114).  The
`json.loads` library call is modelled by its outcome: a parsed issue array,
or a `json.JSONDecodeError` carrying its rendered message. -/
def _parse_ruff_output (res : Except String (List RuffIssue)) : List Finding :=
  match res with
  | Except.ok issues => issues.map convert_ruff_issue
  | Except.error e =>
      [{ type := FindingType.bug, severity := Severity.medium,
         location := { file := "ruff_output", line := none, column := none,
                       end_line := none, function := none },
         message := "Failed to parse ruff output: " ++ e,
         rule_id := some "RUFF003", fix_available := false }]

/-- Spec indicator: 1 on a conditional branch node. -/
def ifInd : PyNode → Int
  | .ifStmt .. => 1
  | _ => 0

/-- Spec indicator: 1 on a `for` loop node. -/
def forInd : PyNode → Int
  | .forStmt .. => 1
  | _ => 0

/-- Spec indicator: 1 on a `while` loop node. -/
def whileInd : PyNode → Int
  | .whileStmt .. => 1
  | _ => 0

/-- Spec indicator: 1 on an exception-handler clause. -/
def handlerInd : PyNode → Int
  | .exceptHandler _ => 1
  | _ => 0

/-- Spec indicator: 1 on a scoped-resource (`with`) block. -/
def withInd : PyNode → Int
  | .withStmt .. => 1
  | _ => 0

/-- Spec indicator: operand count minus one on a short-circuit boolean
expression. -/
def boolInd : PyNode → Int
  | .boolOp vs => (vs.length : Int) - 1
  | _ => 0

/-- Modelled from the spec: the number of `if` statements anywhere in the
subtree. -/
def specIfCount (t : PyNode) : Int := nodeSumI ifInd t

/-- Modelled from the spec: the number of `for` loops anywhere in the
subtree. -/
def specForCount (t : PyNode) : Int := nodeSumI forInd t

/-- Modelled from the spec: the number of `while` loops anywhere in the
subtree. -/
def specWhileCount (t : PyNode) : Int := nodeSumI whileInd t

/-- Modelled from the spec: the number of exception-handler clauses
anywhere in the subtree. -/
def specHandlerCount (t : PyNode) : Int := nodeSumI handlerInd t

/-- Modelled from the spec: the number of `with` blocks anywhere in the
subtree. -/
def specWithCount (t : PyNode) : Int := nodeSumI withInd t

/-- Modelled from the spec: the sum over short-circuit boolean expressions
anywhere in the subtree of (operand count − 1). -/
def specBoolExcess (t : PyNode) : Int := nodeSumI boolInd t

/-- Modelled from the spec: the claimed level-to-severity mapping of the
line-oriented diagnostic parser — `error` goes through the fixed
code-to-severity table defaulting to `medium`, `warning` to `low`, `note`
to `info`, anything else to `medium`. -/
def claimedMypySeverity (level : String) (code : Option String) : Severity :=
  if level = "error" then
    match code with
    | some c => (MYPY_SEVERITY_MAP.lookup c).getD Severity.medium
    | none => Severity.medium
  else if level = "warning" then Severity.low
  else if level = "note" then Severity.info
  else Severity.medium

/-- Modelled from the spec: the claimed rule identifier — `mypy:<code>`
when a code is present, the bare tool name otherwise. -/
def claimedMypyRuleId (code : Option String) : String :=
  match code with
  | some c => "mypy:" ++ c
  | none => "mypy"

/-- Modelled from the spec: a single line matches the diagnostic pattern
when an anchored match attempt on that line alone succeeds. -/
def lineMatches (l : List Char) : Bool := (matchFrom [l]).isSome

theorem string_data_append (a b : String) : (a ++ b).data = a.data ++ b.data := rfl

theorem string_mk_eq_empty_iff (l : List Char) : String.mk l = "" ↔ l = [] := by
  constructor
  · intro h
    exact congrArg String.data h
  · intro h
    rw [h]

mutual

theorem nodeSumI_add (f g : PyNode → Int) :
    ∀ t : PyNode, nodeSumI (fun n => f n + g n) t = nodeSumI f t + nodeSumI g t
  | .ifStmt t b e => by
      simp only [nodeSumI, nodeSumI_add f g t, listSumI_add f g b, listSumI_add f g e]; ring
  | .forStmt t i b e => by
      simp only [nodeSumI, nodeSumI_add f g t, nodeSumI_add f g i, listSumI_add f g b,
        listSumI_add f g e]; ring
  | .whileStmt t b e => by
      simp only [nodeSumI, nodeSumI_add f g t, listSumI_add f g b, listSumI_add f g e]; ring
  | .withStmt its b => by
      simp only [nodeSumI, listSumI_add f g its, listSumI_add f g b]; ring
  | .tryStmt b h e fb => by
      simp only [nodeSumI, listSumI_add f g b, listSumI_add f g h, listSumI_add f g e,
        listSumI_add f g fb]; ring
  | .exceptHandler b => by simp only [nodeSumI, listSumI_add f g b]; ring
  | .boolOp vs => by simp only [nodeSumI, listSumI_add f g vs]; ring
  | .functionDef n l c el a b => by simp only [nodeSumI, listSumI_add f g b]; ring
  | .asyncFunctionDef n l c el a b => by simp only [nodeSumI, listSumI_add f g b]; ring
  | .classDef n l c b => by simp only [nodeSumI, listSumI_add f g b]; ring
  | .other cs => by simp only [nodeSumI, listSumI_add f g cs]; ring

theorem listSumI_add (f g : PyNode → Int) :
    ∀ l : List PyNode, listSumI (fun n => f n + g n) l = listSumI f l + listSumI g l
  | [] => by simp [listSumI]
  | n :: ns => by
      simp only [listSumI, nodeSumI_add f g n, listSumI_add f g ns]; ring

end

/-- C1: for every function definition, the computed cyclomatic complexity
equals 1 plus one per `if`, `for`, `while`, exception handler and `with`
block anywhere in the subtree, plus (operand count − 1) per short-circuit
boolean expression; a function with one conditional and one loop has
complexity 3, and a four-operand boolean chain contributes 3. -/
theorem C1_complexity_metric :
    (∀ t : PyNode,
      complexityOf t = 1 + specIfCount t + specForCount t + specWhileCount t
        + specHandlerCount t + specWithCount t + specBoolExcess t)
    ∧ complexityOf (.functionDef "f" 1 0 none 0
        [.ifStmt (.other []) [.other []] [],
         .forStmt (.other []) (.other []) [.other []] []]) = 3
    ∧ addedComplexity (.boolOp [.other [], .other [], .other [], .other []]) = 3 := by
  refine ⟨fun t => ?_, by decide, by decide⟩
  have h6 : visitAdd = fun n =>
      ifInd n + (forInd n + (whileInd n + (handlerInd n + (withInd n + boolInd n)))) := by
    funext n
    cases n <;> simp [visitAdd, ifInd, forInd, whileInd, handlerInd, withInd, boolInd]
  have h1 := nodeSumI_add ifInd
      (fun n => forInd n + (whileInd n + (handlerInd n + (withInd n + boolInd n)))) t
  have h2 := nodeSumI_add forInd
      (fun n => whileInd n + (handlerInd n + (withInd n + boolInd n))) t
  have h3 := nodeSumI_add whileInd (fun n => handlerInd n + (withInd n + boolInd n)) t
  have h4 := nodeSumI_add handlerInd (fun n => withInd n + boolInd n) t
  have h5 := nodeSumI_add withInd boolInd t
  simp only [complexityOf, addedComplexity, specIfCount, specForCount, specWhileCount,
    specHandlerCount, specWithCount, specBoolExcess, h6, h1, h2, h3, h4, h5]
  ring

/-- C2: the structural analyzer never raises past its boundary, and its
two failure modes are normalized exactly as claimed: a syntax error gives
one critical AST001 bug Finding at the parser-reported position (defaulting
to 0) whose message contains the parser's message, and any other read or
parse failure gives one high AST000 bug Finding locating only the file. -/
theorem C2_parse_failure_findings :
    ∀ (threshold : Nat) (fp : String) (ln off : Option Nat) (msg emsg : String),
      analyze_file threshold fp (.syntaxError ln off msg) =
        [{ type := FindingType.bug, severity := Severity.critical,
           location := { file := fp, line := some (ln.getD 0), column := some (off.getD 0),
                         end_line := none, function := none },
           message := "Syntax error: " ++ msg, rule_id := some "AST001",
           fix_available := false }]
      ∧ List.IsSuffix msg.data ("Syntax error: " ++ msg).data
      ∧ analyze_file threshold fp (.otherError emsg) =
        [{ type := FindingType.bug, severity := Severity.high,
           location := { file := fp, line := none, column := none, end_line := none,
                         function := none },
           message := "Failed to analyze file: " ++ emsg, rule_id := some "AST000",
           fix_available := false }]
      ∧ List.IsSuffix emsg.data ("Failed to analyze file: " ++ emsg).data :=
  fun _ _ _ _ _ _ =>
    ⟨rfl, ⟨"Syntax error: ".data, rfl⟩, rfl, ⟨"Failed to analyze file: ".data, rfl⟩⟩

/-- C6: a failed JSON parse of the linter output yields exactly one bug
Finding of severity medium whose message describes the parse failure, and
the parser is total. -/
theorem C6_malformed_output_finding :
    ∀ e : String,
      _parse_ruff_output (Except.error e) =
        [{ type := FindingType.bug, severity := Severity.medium,
           location := { file := "ruff_output", line := none, column := none,
                         end_line := none, function := none },
           message := "Failed to parse ruff output: " ++ e,
           rule_id := some "RUFF003", fix_available := false }]
      ∧ List.IsSuffix e.data ("Failed to parse ruff output: " ++ e).data :=
  fun _ => ⟨rfl, ⟨"Failed to parse ruff output: ".data, rfl⟩⟩

/-- C9: the tree walk dispatches nothing for an `async def` node, so async
functions produce no structural findings of their own, and async methods in
a class body do not count toward the AST200 method-count rule. -/
theorem C9_async_not_analyzed :
    (∀ (threshold : Nat) (fp name : String) (lineno colOffset : Nat)
       (endLineno : Option Nat) (argCount : Nat) (body : List PyNode),
       nodeFindings threshold fp
         (.asyncFunctionDef name lineno colOffset endLineno argCount body) = [])
    ∧ (∀ (fp name : String) (lineno colOffset : Nat) (b1 b2 : List PyNode)
         (aname : String) (alineno acol : Nat) (aend : Option Nat) (aargs : Nat)
         (abody : List PyNode),
         analyze_class fp name lineno colOffset
           (b1 ++ .asyncFunctionDef aname alineno acol aend aargs abody :: b2)
         = analyze_class fp name lineno colOffset (b1 ++ b2)) := by
  refine ⟨fun _ _ _ _ _ _ _ _ => rfl, ?_⟩
  intro fp name lineno colOffset b1 b2 aname alineno acol aend aargs abody
  simp [analyze_class, List.filter_append, isFunctionDefNode]

/-- C10: the severity lookup key is the maximal leading alphabetic run of
the rule code, so the table keys containing a digit can never be matched;
codes starting with those digit-bearing keys fall back to `medium` even
though the table lists them as `low`. -/
theorem C10_digit_keys_unreachable :
    (∀ code : String, leadingAlphaOf code ≠ "C4" ∧ leadingAlphaOf code ≠ "T20")
    ∧ (∀ rest : String, get_severity_for_rule ("C4" ++ rest) = Severity.medium
         ∧ get_severity_for_rule ("T20" ++ rest) = Severity.medium)
    ∧ List.lookup "C4" RUFF_SEVERITY_MAP = some Severity.low
    ∧ List.lookup "T20" RUFF_SEVERITY_MAP = some Severity.low
    ∧ get_severity_for_rule "C408" = Severity.medium
    ∧ get_severity_for_rule "T201" = Severity.medium := by
  refine ⟨?_, ?_, by decide, by decide, by decide, by decide⟩
  · intro code
    constructor
    · intro h
      have hd : code.data.takeWhile Char.isAlpha = "C4".data := congrArg String.data h
      have h4 : '4' ∈ code.data.takeWhile Char.isAlpha := by rw [hd]; decide
      exact absurd (List.mem_takeWhile_imp h4) (by decide)
    · intro h
      have hd : code.data.takeWhile Char.isAlpha = "T20".data := congrArg String.data h
      have h2 : '2' ∈ code.data.takeWhile Char.isAlpha := by rw [hd]; decide
      exact absurd (List.mem_takeWhile_imp h2) (by decide)
  · intro rest
    constructor
    · have hl : leadingAlphaOf ("C4" ++ rest) = "C" := by
        have hdata : ("C4" ++ rest).data = 'C' :: '4' :: rest.data := rfl
        have ht : List.takeWhile Char.isAlpha ('C' :: '4' :: rest.data) = ['C'] := by
          rw [List.takeWhile_cons_of_pos (by decide), List.takeWhile_cons_of_neg (by decide)]
        rw [leadingAlphaOf, hdata, ht]
      rw [get_severity_for_rule, hl]
      decide
    · have hl : leadingAlphaOf ("T20" ++ rest) = "T" := by
        have hdata : ("T20" ++ rest).data = 'T' :: '2' :: '0' :: rest.data := rfl
        have ht : List.takeWhile Char.isAlpha ('T' :: '2' :: '0' :: rest.data) = ['T'] := by
          rw [List.takeWhile_cons_of_pos (by decide), List.takeWhile_cons_of_neg (by decide)]
        rw [leadingAlphaOf, hdata, ht]
      rw [get_severity_for_rule, hl]
      decide

theorem sumCounts_bump {α : Type} [DecidableEq α] (k : α) :
    ∀ m : List (α × Nat), sumCounts (bumpCount k m) = sumCounts m + 1
  | [] => by simp [bumpCount, sumCounts]
  | (k', n) :: rest => by
      by_cases h : k = k'
      · simp only [bumpCount, if_pos h, sumCounts, List.map_cons, List.sum_cons]
        omega
      · simp only [bumpCount, if_neg h, sumCounts, List.map_cons, List.sum_cons]
        have := sumCounts_bump k rest
        simp only [sumCounts] at this
        omega

theorem sumCounts_foldl {α β : Type} [DecidableEq α] (key : β → α) :
    ∀ (l : List β) (acc : List (α × Nat)),
      sumCounts (l.foldl (fun acc b => bumpCount (key b) acc) acc) =
        sumCounts acc + l.length
  | [], acc => by simp
  | b :: bs, acc => by
      simp only [List.foldl_cons, List.length_cons,
        sumCounts_foldl key bs (bumpCount (key b) acc), sumCounts_bump]
      omega

theorem mem_countKeys_bump {α : Type} [DecidableEq α] (a k : α) :
    ∀ m : List (α × Nat), a ∈ countKeys (bumpCount k m) ↔ a = k ∨ a ∈ countKeys m
  | [] => by simp [bumpCount, countKeys]
  | (k', n) :: rest => by
      by_cases h : k = k'
      · subst h
        have hb : bumpCount k ((k, n) :: rest) = (k, n + 1) :: rest := by
          simp [bumpCount]
        rw [hb]
        simp only [countKeys, List.map_cons, List.mem_cons]
        tauto
      · simp only [bumpCount, if_neg h, countKeys, List.map_cons, List.mem_cons]
        have := mem_countKeys_bump a k rest
        simp only [countKeys] at this
        rw [this]
        tauto

theorem mem_countKeys_foldl {α β : Type} [DecidableEq α] (key : β → α) (a : α) :
    ∀ (l : List β) (acc : List (α × Nat)),
      a ∈ countKeys (l.foldl (fun acc b => bumpCount (key b) acc) acc) ↔
        (∃ b ∈ l, key b = a) ∨ a ∈ countKeys acc
  | [], acc => by simp
  | b :: bs, acc => by
      simp only [List.foldl_cons]
      rw [mem_countKeys_foldl key a bs (bumpCount (key b) acc), mem_countKeys_bump]
      simp only [List.mem_cons]
      constructor
      · rintro (⟨x, hx, hxa⟩ | (h | h))
        · exact Or.inl ⟨x, Or.inr hx, hxa⟩
        · exact Or.inl ⟨b, Or.inl rfl, h.symm⟩
        · exact Or.inr h
      · rintro (⟨x, hx | hx, hxa⟩ | h)
        · subst hx
          exact Or.inr (Or.inl hxa.symm)
        · exact Or.inl ⟨x, hx, hxa⟩
        · exact Or.inr (Or.inr h)

/-- C3: the summary's severity counts and type counts each sum to the
number of findings, `total_findings` is that number, absent categories are
absent from the mappings, and `total_files` is the number of distinct files
among the findings' locations, falling back to the supplied source-file
count when the finding list is empty. -/
theorem C3_summary_counts :
    ∀ (findings : List Finding) (pyCount : Nat),
      sumCounts (_generate_summary findings pyCount).findings_by_severity = findings.length
      ∧ sumCounts (_generate_summary findings pyCount).findings_by_type = findings.length
      ∧ (_generate_summary findings pyCount).total_findings = findings.length
      ∧ (∀ s : Severity,
           s ∈ countKeys (_generate_summary findings pyCount).findings_by_severity ↔
             ∃ f ∈ findings, f.severity = s)
      ∧ (∀ ty : FindingType,
           ty ∈ countKeys (_generate_summary findings pyCount).findings_by_type ↔
             ∃ f ∈ findings, f.type = ty)
      ∧ (findings = [] → (_generate_summary findings pyCount).total_files = pyCount)
      ∧ (findings ≠ [] → (_generate_summary findings pyCount).total_files =
           ((findings.map (fun f => f.location.file)).toFinset).card) := by
  intro findings pyCount
  refine ⟨?_, ?_, rfl, ?_, ?_, ?_, ?_⟩
  · simpa [_generate_summary, countsBy, sumCounts] using
      sumCounts_foldl (fun f : Finding => f.severity) findings []
  · simpa [_generate_summary, countsBy, sumCounts] using
      sumCounts_foldl (fun f : Finding => f.type) findings []
  · intro s
    simpa [_generate_summary, countsBy, countKeys] using
      mem_countKeys_foldl (fun f : Finding => f.severity) s findings []
  · intro ty
    simpa [_generate_summary, countsBy, countKeys] using
      mem_countKeys_foldl (fun f : Finding => f.type) ty findings []
  · intro h
    subst h
    rfl
  · intro h
    have hne : (findings.map (fun f => f.location.file)).dedup ≠ [] := by
      simp [List.dedup_eq_nil, h]
    simp only [_generate_summary]
    rw [if_neg (by simpa [List.isEmpty_iff] using hne), List.card_toFinset]

/-- Witness for C3 at concrete inputs: an empty run falls back to the
supplied file count, and a one-finding run counts its one distinct file. -/
theorem C3_summary_counts_witness :
    (_generate_summary [] 4).total_files = 4
    ∧ (_generate_summary
        [{ type := FindingType.bug, severity := Severity.high,
           location := { file := "a.py" }, message := "m" }] 4).total_files = 1 := by
  constructor
  · exact (C3_summary_counts [] 4).2.2.2.2.2.1 rfl
  · have h := (C3_summary_counts
      [{ type := FindingType.bug, severity := Severity.high,
         location := { file := "a.py" }, message := "m" }] 4).2.2.2.2.2.2 (by simp)
    rw [h]
    decide

/-- C4: the structural analyzer emits an AST100 complexity Finding if and
only if the computed complexity strictly exceeds the threshold; that
Finding has type `complexity`, severity `high` exactly when complexity
strictly exceeds twice the threshold and `medium` otherwise, and its
message contains the function name and the numeric complexity. -/
theorem C4_complexity_threshold_rule :
    ∀ (threshold : Nat) (fp name : String) (lineno colOffset : Nat)
      (endLineno : Option Nat) (argCount : Nat) (body : List PyNode),
      ((analyze_function threshold fp name lineno colOffset endLineno argCount body).countP
          (fun f => f.rule_id == some "AST100") =
        if (threshold : Int) <
            complexityOf (.functionDef name lineno colOffset endLineno argCount body)
        then 1 else 0)
      ∧ (∀ f ∈ analyze_function threshold fp name lineno colOffset endLineno argCount body,
          f.rule_id = some "AST100" →
            f.type = FindingType.complexity
            ∧ f.severity = (if (threshold : Int) * 2 <
                  complexityOf (.functionDef name lineno colOffset endLineno argCount body)
                then Severity.high else Severity.medium)
            ∧ List.IsInfix name.data f.message.data
            ∧ List.IsInfix
                (toString (complexityOf
                  (.functionDef name lineno colOffset endLineno argCount body))).data
                f.message.data) := by
  intro threshold fp name lineno colOffset endLineno argCount body
  constructor
  · cases endLineno with
    | none =>
        simp only [analyze_function]
        split_ifs <;> simp_all [List.countP_append, List.countP_cons, beq_iff_eq]
    | some e =>
        simp only [analyze_function]
        split_ifs <;> simp_all [List.countP_append, List.countP_cons, beq_iff_eq]
  · intro f hf hr
    simp only [analyze_function, List.mem_append] at hf
    rcases hf with (hf | hf) | hf
    · split at hf
      · rw [List.mem_singleton] at hf
        subst hf
        refine ⟨rfl, rfl, ?_, ?_⟩
        · exact ⟨"Function '".data,
            ("' has high cyclomatic complexity ("
              ++ toString (complexityOf
                (.functionDef name lineno colOffset endLineno argCount body)) ++ ")").data,
            by simp [string_data_append, List.append_assoc]⟩
        · exact ⟨("Function '" ++ name ++ "' has high cyclomatic complexity (").data,
            ")".data,
            by simp [string_data_append, List.append_assoc]⟩
      · exact absurd hf (List.not_mem_nil f)
    · split at hf
      · rw [List.mem_singleton] at hf
        subst hf
        simp at hr
      · exact absurd hf (List.not_mem_nil f)
    · cases endLineno with
      | none => exact absurd hf (List.not_mem_nil f)
      | some e =>
          simp only at hf
          split at hf
          · exact absurd hf (List.not_mem_nil f)
          · split at hf
            · rw [List.mem_singleton] at hf
              subst hf
              simp at hr
            · exact absurd hf (List.not_mem_nil f)

/-- Witness for C4 at a concrete function of complexity 3 against threshold
2: the AST100 Finding is present exactly once and has severity `medium`. -/
theorem C4_complexity_threshold_rule_witness :
    (analyze_function 2 "a.py" "g" 1 0 none 0
        [.ifStmt (.other []) [] [], .forStmt (.other []) (.other []) [] []]).countP
      (fun f => f.rule_id == some "AST100") = 1
    ∧ ({ type := FindingType.complexity, severity := Severity.medium,
         location := { file := "a.py", line := some 1, column := some 0,
                       end_line := none, function := some "g" },
         message := "Function 'g' has high cyclomatic complexity (3)",
         rule_id := some "AST100", fix_available := false } : Finding).type
        = FindingType.complexity := by
  have h := C4_complexity_threshold_rule 2 "a.py" "g" 1 0 none 0
    [.ifStmt (.other []) [] [], .forStmt (.other []) (.other []) [] []]
  constructor
  · rw [h.1]
    decide
  · exact (h.2 _ (by decide) (by decide)).1

/-- C7: raising the critical count from 0 to 1 while every other statistic
the rules read is unchanged adds exactly one urgent recommendation at the
front and leaves the output of every other rule untouched; each of the
seven rules is an independent threshold check. -/
theorem C7_critical_monotonicity :
    ∀ (L0 L1 : List Finding) (g : Option GitMetrics),
      critical_count L0 = 0 → critical_count L1 = 1 →
      high_count L1 = high_count L0 →
      (complexity_issues L1).length = (complexity_issues L0).length →
      (type_errors L1).length = (type_errors L0).length →
      fixable_count L1 = fixable_count L0 →
      _generate_recommendations L1 g =
        { priority := Priority.urgent, category := "Critical Issues",
          action := "Fix 1 critical issue(s) immediately",
          rationale := "Critical issues can cause runtime failures or security vulnerabilities",
          impact := "Prevents potential system failures and security breaches",
          effort := some "medium", related_findings := [] }
        :: _generate_recommendations L0 g := by
  intro L0 L1 g hc0 hc1 hh hcx hte hfx
  simp only [_generate_recommendations, hc0, hc1, hh, hcx, hte, hfx]
  norm_num
  decide

/-- Witness for C7: an empty run against a run with a single critical
finding. -/
theorem C7_critical_monotonicity_witness :
    _generate_recommendations
        [{ type := FindingType.bug, severity := Severity.critical,
           location := { file := "a.py" }, message := "boom" }] none =
      { priority := Priority.urgent, category := "Critical Issues",
        action := "Fix 1 critical issue(s) immediately",
        rationale := "Critical issues can cause runtime failures or security vulnerabilities",
        impact := "Prevents potential system failures and security breaches",
        effort := some "medium", related_findings := [] }
      :: _generate_recommendations [] none :=
  C7_critical_monotonicity []
    [{ type := FindingType.bug, severity := Severity.critical,
       location := { file := "a.py" }, message := "boom" }] none
    (by decide) (by decide) (by decide) (by decide) (by decide) (by decide)

theorem isEmpty_false_ne {α : Type} {l : List α} (h : l.isEmpty = false) : l ≠ [] := by
  cases l with
  | nil => simp at h
  | cons a as => simp

theorem tryCode_code_ne {cur : List Char} {ls : List (List Char)} {c : String}
    {rem : List (List Char)} (h : tryCode cur ls = some (c, rem)) : c ≠ "" := by
  unfold tryCode at h
  by_cases hb : (wsJump cur ls).1 = true
  · rw [if_pos hb] at h
    rcases hc : (wsJump cur ls).2.1 with _ | ⟨a, c2⟩
    · rw [hc] at h
      simp at h
    · rw [hc] at h
      dsimp only at h
      by_cases ha : a = '['
      · rw [if_pos ha] at h
        by_cases hcode : (c2.takeWhile isCodeChar).isEmpty = true
        · rw [if_pos hcode] at h
          simp at h
        · rw [if_neg hcode] at h
          rcases hd : c2.dropWhile isCodeChar with _ | ⟨b, c3⟩
          · rw [hd] at h
            simp at h
          · rw [hd] at h
            dsimp only at h
            split at h
            · simp only [Option.some.injEq, Prod.mk.injEq] at h
              obtain ⟨h1, _⟩ := h
              subst h1
              rw [Ne, string_mk_eq_empty_iff]
              exact isEmpty_false_ne (by simpa using hcode)
            · simp at h
      · rw [if_neg ha] at h
        simp at h
  · rw [if_neg hb] at h
    simp at h

theorem msgScan_inv : ∀ (rest : List Char) (acc : List Char) (ls : List (List Char))
    (msg : List Char) (code : Option String) (rem : List (List Char)),
    msgScan acc rest ls = some (msg, code, rem) → msg ≠ [] ∧ code ≠ some ""
  | [], acc, ls, msg, code, rem => by
      intro h
      simp [msgScan] at h
  | c :: rs, acc, ls, msg, code, rem => by
      intro h
      rw [msgScan] at h
      rcases htc : tryCode rs ls with _ | ⟨code0, rem0⟩
      · rw [htc] at h
        dsimp only [msgScanStep] at h
        cases rs with
        | nil =>
            simp only [Option.some.injEq, Prod.mk.injEq] at h
            obtain ⟨h1, h2, _⟩ := h
            subst h1
            subst h2
            simp
        | cons r rs' =>
            exact msgScan_inv (r :: rs') (acc ++ [c]) ls msg code rem h
      · rw [htc] at h
        dsimp only [msgScanStep] at h
        simp only [Option.some.injEq, Prod.mk.injEq] at h
        obtain ⟨h1, h2, _⟩ := h
        subst h1
        subst h2
        refine ⟨by simp, ?_⟩
        intro hcontra
        have hne := tryCode_code_ne htc
        simp only [Option.some.injEq] at hcontra
        exact hne hcontra

theorem matchFrom_inv : ∀ (ls : List (List Char)) (m : MypyMatch) (rem : List (List Char)),
    matchFrom ls = some (m, rem) → m.message ≠ "" ∧ m.code ≠ some "" := by
  intro ls m rem h
  unfold matchFrom at h
  rcases h0 : splitColonFree ls with _ | ⟨pre, colonLine, rest⟩
  · rw [h0] at h
    simp at h
  · rw [h0] at h
    dsimp only at h
    split at h
    · simp at h
    · rcases h1 : expectChar ':' (colonLine.dropWhile (fun c => c != ':')) with _ | r1
      · rw [h1] at h
        simp at h
      · rw [h1] at h
        dsimp only at h
        rcases h2 : digits1 r1 with _ | ⟨lineDs, r2⟩
        · rw [h2] at h
          simp at h
        · rw [h2] at h
          dsimp only at h
          rcases h3 : expectChar ':' r2 with _ | r3
          · rw [h3] at h
            simp at h
          · rw [h3] at h
            dsimp only at h
            rcases h4 : digits1 r3 with _ | ⟨colDs, r4⟩
            · rw [h4] at h
              simp at h
            · rw [h4] at h
              dsimp only at h
              rcases h5 : expectChar ':' r4 with _ | r5
              · rw [h5] at h
                simp at h
              · rw [h5] at h
                dsimp only at h
                rcases h6 : expectChar ' ' r5 with _ | r6
                · rw [h6] at h
                  simp at h
                · rw [h6] at h
                  dsimp only at h
                  split at h
                  · simp at h
                  · rcases h7 : expectChar ':' (r6.dropWhile isWordChar) with _ | r7
                    · rw [h7] at h
                      simp at h
                    · rw [h7] at h
                      dsimp only at h
                      rcases h8 : expectChar ' ' r7 with _ | r8
                      · rw [h8] at h
                        simp at h
                      · rw [h8] at h
                        dsimp only at h
                        rcases h9 : msgScan [] r8 rest with _ | ⟨msg, code, remaining⟩
                        · rw [h9] at h
                          simp at h
                        · rw [h9] at h
                          dsimp only at h
                          simp only [Option.some.injEq, Prod.mk.injEq] at h
                          obtain ⟨hm, _⟩ := h
                          subst hm
                          have hmc := msgScan_inv r8 [] rest msg code remaining h9
                          refine ⟨?_, hmc.2⟩
                          rw [Ne, string_mk_eq_empty_iff]
                          exact hmc.1

theorem findMatchesFuel_inv : ∀ (fuel : Nat) (ls : List (List Char)) (m : MypyMatch),
    m ∈ findMatchesFuel fuel ls → m.message ≠ "" ∧ m.code ≠ some "" := by
  intro fuel
  induction fuel with
  | zero =>
      intro ls m h
      simp [findMatchesFuel] at h
  | succ n ih =>
      intro ls m h
      cases ls with
      | nil => simp [findMatchesFuel] at h
      | cons l ls' =>
          rw [findMatchesFuel] at h
          rcases hm : matchFrom (l :: ls') with _ | ⟨m0, remaining⟩
          · rw [hm] at h
            exact ih ls' m h
          · rw [hm] at h
            rcases List.mem_cons.mp h with h' | h'
            · rw [h']
              exact matchFrom_inv (l :: ls') m0 remaining hm
            · exact ih remaining m h'

theorem findAllMatches_inv {ls : List (List Char)} {m : MypyMatch}
    (h : m ∈ findAllMatches ls) : m.message ≠ "" ∧ m.code ≠ some "" :=
  findMatchesFuel_inv ls.length ls m h

/-- C5 counterexample: on the input `"x\n:1:2: error: m"` the parser
produces one Finding although no single line of the input matches the
diagnostic pattern on its own — the multiline `[^:]+` file group absorbs
the first line, so the claimed one-Finding-per-matching-line accounting is
violated. -/
theorem C5_counterexample :
    (_parse_mypy_output "x\n:1:2: error: m").length = 1
    ∧ ((splitNL ("x\n:1:2: error: m").data).countP lineMatches) = 0 := by
  constructor
  · rfl
  · rfl

/-- C5 amended: one Finding per regex match of the multiline pattern (a
match may span several input lines through the file group and a trailing
bracketed code); every produced Finding has type `type_error`, the
severity claimed for its level and code, the rule id `mypy:<code>` when a
code was captured and the bare tool name otherwise, and the match's
message text. -/
theorem C5_match_normalization :
    ∀ output : String,
      _parse_mypy_output output
          = (findAllMatches (splitNL output.data)).map convert_mypy_match
      ∧ (_parse_mypy_output output).length = (findAllMatches (splitNL output.data)).length
      ∧ (∀ m ∈ findAllMatches (splitNL output.data),
          (convert_mypy_match m).type = FindingType.type_error
          ∧ (convert_mypy_match m).severity = claimedMypySeverity m.level m.code
          ∧ (convert_mypy_match m).rule_id = some (claimedMypyRuleId m.code)
          ∧ (convert_mypy_match m).message = m.message) := by
  intro output
  refine ⟨rfl, by simp [_parse_mypy_output], ?_⟩
  intro m hm
  refine ⟨rfl, rfl, ?_, rfl⟩
  have hcode := (findAllMatches_inv hm).2
  cases hc : m.code with
  | none => simp only [convert_mypy_match, claimedMypyRuleId, hc]
  | some c =>
      have hcne : c ≠ "" := by
        intro hce
        subst hce
        rw [hc] at hcode
        exact hcode rfl
      simp only [convert_mypy_match, claimedMypyRuleId, hc, Option.some.injEq, if_neg hcne]

/-- Witness for C5 on a concrete diagnostic line with a code. -/
theorem C5_match_normalization_witness :
    (convert_mypy_match
        { file := "m.py", line := 1, col := 2, level := "error", message := "boom",
          code := some "arg-type" }).rule_id
      = some (claimedMypyRuleId (some "arg-type")) :=
  ((C5_match_normalization "m.py:1:2: error: boom [arg-type]").2.2
    { file := "m.py", line := 1, col := 2, level := "error", message := "boom",
      code := some "arg-type" } (by decide)).2.2.1

theorem append_ne_empty_left {a : String} (ha : a ≠ "") (b : String) : a ++ b ≠ "" := by
  intro h
  apply ha
  have hd := congrArg String.data h
  rw [string_data_append] at hd
  obtain ⟨h1, _⟩ := List.append_eq_nil.mp hd
  exact congrArg String.mk h1

theorem analyze_function_message_ne {threshold : Nat} {fp name : String}
    {lineno colOffset : Nat} {endLineno : Option Nat} {argCount : Nat}
    {body : List PyNode} {f : Finding}
    (hf : f ∈ analyze_function threshold fp name lineno colOffset endLineno argCount body) :
    f.message ≠ "" := by
  simp only [analyze_function, List.mem_append] at hf
  rcases hf with (hf | hf) | hf
  · split at hf
    · rw [List.mem_singleton] at hf
      subst hf
      exact append_ne_empty_left (append_ne_empty_left (append_ne_empty_left
        (append_ne_empty_left (by decide) _) _) _) _
    · exact absurd hf (List.not_mem_nil f)
  · split at hf
    · rw [List.mem_singleton] at hf
      subst hf
      exact append_ne_empty_left (append_ne_empty_left (append_ne_empty_left
        (append_ne_empty_left (by decide) _) _) _) _
    · exact absurd hf (List.not_mem_nil f)
  · cases endLineno with
    | none => exact absurd hf (List.not_mem_nil f)
    | some e =>
        simp only at hf
        split at hf
        · exact absurd hf (List.not_mem_nil f)
        · split at hf
          · rw [List.mem_singleton] at hf
            subst hf
            exact append_ne_empty_left (append_ne_empty_left (append_ne_empty_left
              (append_ne_empty_left (by decide) _) _) _) _
          · exact absurd hf (List.not_mem_nil f)

theorem analyze_class_message_ne {fp name : String} {lineno colOffset : Nat}
    {body : List PyNode} {f : Finding}
    (hf : f ∈ analyze_class fp name lineno colOffset body) : f.message ≠ "" := by
  simp only [analyze_class] at hf
  split at hf
  · rw [List.mem_singleton] at hf
    subst hf
    exact append_ne_empty_left (append_ne_empty_left (append_ne_empty_left
      (append_ne_empty_left (by decide) _) _) _) _
  · exact absurd hf (List.not_mem_nil f)

theorem nodeFindings_message_ne {threshold : Nat} {fp : String} :
    ∀ (n : PyNode) (f : Finding), f ∈ nodeFindings threshold fp n → f.message ≠ "" := by
  intro n f hf
  cases n with
  | functionDef name lineno colOffset endLineno argCount body =>
      exact analyze_function_message_ne hf
  | classDef name lineno colOffset body =>
      exact analyze_class_message_ne hf
  | ifStmt t b e => simp [nodeFindings] at hf
  | forStmt t i b e => simp [nodeFindings] at hf
  | whileStmt t b e => simp [nodeFindings] at hf
  | withStmt its b => simp [nodeFindings] at hf
  | tryStmt b hs e fb => simp [nodeFindings] at hf
  | exceptHandler b => simp [nodeFindings] at hf
  | boolOp vs => simp [nodeFindings] at hf
  | asyncFunctionDef name lineno colOffset endLineno argCount body =>
      simp [nodeFindings] at hf
  | other cs => simp [nodeFindings] at hf

theorem analyze_tree_message_ne {threshold : Nat} {fp : String} {tree : PyNode} {f : Finding}
    (hf : f ∈ analyze_tree threshold fp tree) : f.message ≠ "" := by
  simp only [analyze_tree, List.mem_flatMap] at hf
  obtain ⟨n, _, hn⟩ := hf
  exact nodeFindings_message_ne n f hn

/-- C8 counterexample: the structured parser accepts an issue object whose
`message` value is the empty string and passes it through verbatim, so the
produced Finding has an empty message. -/
theorem C8_counterexample :
    ((_parse_ruff_output (Except.ok [{ message := some "" }])).map
      (fun f => f.message)) = [""] := rfl

/-- C8 amended: every Finding built by the structural analyzer and by the
line-oriented normalizer has a non-empty message, the structured
normalizer's parse-failure Finding has a non-empty message, and a Finding
it builds from an accepted issue object has a non-empty message whenever
the issue's `message` value, if present, is non-empty (an absent value gets
the non-empty default text). -/
theorem C8_message_nonempty_amended :
    (∀ (threshold : Nat) (fp : String) (outcome : ParseOutcome),
       ∀ f ∈ analyze_file threshold fp outcome, f.message ≠ "")
    ∧ (∀ output : String, ∀ f ∈ _parse_mypy_output output, f.message ≠ "")
    ∧ (∀ e : String, ∀ f ∈ _parse_ruff_output (Except.error e), f.message ≠ "")
    ∧ (∀ issues : List RuffIssue, (∀ i ∈ issues, i.message ≠ some "") →
        ∀ f ∈ _parse_ruff_output (Except.ok issues), f.message ≠ "") := by
  refine ⟨?_, ?_, ?_, ?_⟩
  · intro threshold fp outcome f hf
    cases outcome with
    | ok tree => exact analyze_tree_message_ne hf
    | syntaxError ln off msg =>
        rw [show analyze_file threshold fp (.syntaxError ln off msg) =
          [{ type := FindingType.bug, severity := Severity.critical,
             location := { file := fp, line := some (ln.getD 0),
                           column := some (off.getD 0), end_line := none, function := none },
             message := "Syntax error: " ++ msg,
             rule_id := some "AST001", fix_available := false }] from rfl,
          List.mem_singleton] at hf
        subst hf
        exact append_ne_empty_left (by decide) _
    | otherError msg =>
        rw [show analyze_file threshold fp (.otherError msg) =
          [{ type := FindingType.bug, severity := Severity.high,
             location := { file := fp, line := none, column := none, end_line := none,
                           function := none },
             message := "Failed to analyze file: " ++ msg,
             rule_id := some "AST000", fix_available := false }] from rfl,
          List.mem_singleton] at hf
        subst hf
        exact append_ne_empty_left (by decide) _
  · intro output f hf
    simp only [_parse_mypy_output, List.mem_map] at hf
    obtain ⟨m, hm, hconv⟩ := hf
    rw [← hconv]
    exact (findAllMatches_inv hm).1
  · intro e f hf
    rw [show _parse_ruff_output (Except.error e) =
      [{ type := FindingType.bug, severity := Severity.medium,
         location := { file := "ruff_output", line := none, column := none,
                       end_line := none, function := none },
         message := "Failed to parse ruff output: " ++ e,
         rule_id := some "RUFF003", fix_available := false }] from rfl,
      List.mem_singleton] at hf
    subst hf
    exact append_ne_empty_left (by decide) _
  · intro issues hiss f hf
    simp only [_parse_ruff_output, List.mem_map] at hf
    obtain ⟨i, hi, hconv⟩ := hf
    rw [← hconv]
    cases hmsg : i.message with
    | none => simp [convert_ruff_issue, hmsg]
    | some s =>
        have hs : s ≠ "" := by
          intro he
          exact (hiss i hi) (by rw [hmsg, he])
        simp only [convert_ruff_issue, hmsg, Option.getD_some]
        exact hs

/-- Witness for C8 at a concrete issue with no message field: the default
text is non-empty. -/
theorem C8_message_nonempty_amended_witness :
    (convert_ruff_issue {}).message ≠ "" :=
  C8_message_nonempty_amended.2.2.2 [{}] (by simp) (convert_ruff_issue {})
    (by simp [_parse_ruff_output])
